import Mathlib

/-!
Shallow embedding of src/bedrock_model_activator.py (BedrockModelActivator).
Remote boto3 calls are modelled as an explicit environment of oracles; a
Python dict response is a structure whose optional keys are Option fields,
matching each .get call in the source.
-/

/-- A model summary record from the catalog. Every .get on the dict in the
source corresponds to an Option field; extra stands for any further keys,
carried along untouched. -/
structure ModelSummary where
  modelId : Option String
  modelName : Option String
  inferenceTypesSupported : Option (List String)
  extra : List (String × String)
deriving DecidableEq

/-- The agreementAvailability sub-dict of an availability response. -/
structure AgreementAvailability where
  status : Option String
deriving DecidableEq

/-- Response of get_foundation_model_availability. -/
structure AvailabilityResponse where
  agreementAvailability : Option AgreementAvailability
  authorizationStatus : Option String
deriving DecidableEq

/-- An agreement offer; offerToken may be absent or empty. -/
structure Offer where
  offerToken : Option String
  extra : List (String × String)
deriving DecidableEq

/-- Response of list_foundation_models: the modelSummaries key may be absent. -/
structure ListModelsResponse where
  modelSummaries : Option (List ModelSummary)
deriving DecidableEq

/-- Response of list_foundation_model_agreement_offers. -/
structure OffersResponse where
  offers : Option (List Offer)
deriving DecidableEq

/-- The remote collaborator (boto3 bedrock client): each operation either
returns a response or raises a ClientError, modelled as Except String. -/
structure Env where
  listFoundationModels : Except String ListModelsResponse
  getFoundationModelAvailability : Option String → Except String AvailabilityResponse
  listFoundationModelAgreementOffers : Option String → Except String OffersResponse
  createFoundationModelAgreement : Option String → String → Except String Unit

/-- list_foundation_models: response.get of modelSummaries with default [],
ClientError re-raised unmodified. -/
def list_foundation_models (env : Env) : Except String (List ModelSummary) :=
  match env.listFoundationModels with
  | .ok resp => .ok (resp.modelSummaries.getD [])
  | .error e => .error e

/-- The per-model test of filter_on_demand_models: some supported inference
type is ON_DEMAND or INFERENCE_PROFILE (missing key defaults to []). -/
def supportsOnDemandOrProfile (m : ModelSummary) : Bool :=
  (m.inferenceTypesSupported.getD []).any
    (fun t => t = "ON_DEMAND" || t = "INFERENCE_PROFILE")

/-- filter_on_demand_models: the loop appends exactly the models passing the
test, in input order. -/
def filter_on_demand_models : List ModelSummary → List ModelSummary
  | [] => []
  | m :: rest =>
    if supportsOnDemandOrProfile m then m :: filter_on_demand_models rest
    else filter_on_demand_models rest

/-- agreement_status as computed in check_model_access_status:
response.get of agreementAvailability with default the empty dict, then
.get of status with default UNKNOWN. -/
def agreementStatusOf (resp : AvailabilityResponse) : String :=
  match resp.agreementAvailability with
  | none => "UNKNOWN"
  | some a => a.status.getD "UNKNOWN"

/-- check_model_access_status: per model one availability query; status
NOT_AVAILABLE sends the model to the needing-access list, any other status
to the accessible list, a ClientError to the needing-access list. Returns
(accessible_models, models_needing_access) in input order. -/
def check_model_access_status (env : Env) :
    List ModelSummary → List ModelSummary × List ModelSummary
  | [] => ([], [])
  | m :: rest =>
    match env.getFoundationModelAvailability m.modelId with
    | .ok resp =>
      if agreementStatusOf resp = "NOT_AVAILABLE" then
        ((check_model_access_status env rest).1,
         m :: (check_model_access_status env rest).2)
      else
        (m :: (check_model_access_status env rest).1,
         (check_model_access_status env rest).2)
    | .error _ =>
      ((check_model_access_status env rest).1,
       m :: (check_model_access_status env rest).2)

/-- get_agreement_offers: offers key with default [], a ClientError is
converted to the empty list. -/
def get_agreement_offers (env : Env) (model_id : Option String) : List Offer :=
  match env.listFoundationModelAgreementOffers model_id with
  | .ok resp => resp.offers.getD []
  | .error _ => []

/-- create_model_agreement: True on success, False on ClientError. -/
def create_model_agreement (env : Env) (model_id : Option String)
    (offer_token : String) : Bool :=
  match env.createFoundationModelAgreement model_id offer_token with
  | .ok _ => true
  | .error _ => false

/-- One entry of activation_details; the success entry has no reason key and
the failed entry has no offer_token key, hence the Option fields. -/
structure ActivationDetail where
  model_id : Option String
  model_name : String
  status : String
  reason : Option String
  offer_token : Option String
deriving DecidableEq

/-- The activation_results dict of activate_all_models. -/
structure ActivationResults where
  total_models : Nat
  filtered_models : Nat
  already_accessible : Nat
  attempted_activation : Nat
  successful_activations : Nat
  failed_activations : Nat
  activation_details : List ActivationDetail
deriving DecidableEq

/-- The failed branch bookkeeping in the loop of activate_all_models. -/
def recordFailure (r : ActivationResults) (model_id : Option String)
    (model_name : String) (reason : String) : ActivationResults :=
  { r with
    failed_activations := r.failed_activations + 1
    activation_details := r.activation_details ++
      [{ model_id := model_id, model_name := model_name, status := "failed",
         reason := some reason, offer_token := none }] }

/-- The success branch bookkeeping in the loop of activate_all_models. -/
def recordSuccess (r : ActivationResults) (model_id : Option String)
    (model_name : String) (offer_token : String) : ActivationResults :=
  { r with
    successful_activations := r.successful_activations + 1
    activation_details := r.activation_details ++
      [{ model_id := model_id, model_name := model_name, status := "success",
         reason := none, offer_token := some offer_token }] }

/-- The body of the per-model loop in activate_all_models: fetch offers
(empty on error), fail on empty list, take offers[0], fail on a missing or
empty token (Python falsiness of the string), then attempt the agreement. -/
def process_model (env : Env) (r : ActivationResults) (model : ModelSummary) :
    ActivationResults :=
  match get_agreement_offers env model.modelId with
  | [] =>
    recordFailure r model.modelId (model.modelName.getD "Unknown")
      "no_offers_available"
  | offer :: _ =>
    match offer.offerToken with
    | none =>
      recordFailure r model.modelId (model.modelName.getD "Unknown")
        "no_offer_token"
    | some tok =>
      if tok = "" then
        recordFailure r model.modelId (model.modelName.getD "Unknown")
          "no_offer_token"
      else if create_model_agreement env model.modelId tok then
        recordSuccess r model.modelId (model.modelName.getD "Unknown") tok
      else
        recordFailure r model.modelId (model.modelName.getD "Unknown")
          "agreement_creation_failed"

/-- activate_all_models: list the catalog (a ClientError propagates), filter,
classify, then fold the per-model loop over the models needing access,
starting from the initial counters. -/
def activate_all_models (env : Env) : Except String ActivationResults :=
  match list_foundation_models env with
  | .error e => .error e
  | .ok all_models =>
    .ok ((check_model_access_status env (filter_on_demand_models all_models)).2.foldl
      (process_model env)
      { total_models := all_models.length
        filtered_models := (filter_on_demand_models all_models).length
        already_accessible :=
          (check_model_access_status env (filter_on_demand_models all_models)).1.length
        attempted_activation :=
          (check_model_access_status env (filter_on_demand_models all_models)).2.length
        successful_activations := 0
        failed_activations := 0
        activation_details := [] })

/-- Per-model activation outcome, as the spec describes it. -/
inductive ActivationOutcome where
  | success (offerToken : String)
  | failed (reason : String)
deriving DecidableEq

/-- Spec-side remediation mapping, following the claim text for comparison
with the loop body of activate_all_models: an erroring or empty offer fetch
is Failed no_offers_available; otherwise the offer at index 0 is selected,
and a missing or empty offerToken is Failed no_offer_token; otherwise the
agreement is submitted with that exact token, a submission failure is
Failed agreement_creation_failed and success carries the token verbatim. -/
def specRemediate (env : Env) (m : ModelSummary) : ActivationOutcome :=
  match env.listFoundationModelAgreementOffers m.modelId with
  | .error _ => .failed "no_offers_available"
  | .ok resp =>
    match resp.offers.getD [] with
    | [] => .failed "no_offers_available"
    | offer :: _ =>
      match offer.offerToken with
      | none => .failed "no_offer_token"
      | some tok =>
        if tok = "" then .failed "no_offer_token"
        else
          match env.createFoundationModelAgreement m.modelId tok with
          | .ok _ => .success tok
          | .error _ => .failed "agreement_creation_failed"

/-- The detail entry an outcome contributes for a given model. -/
def detailOfOutcome (m : ModelSummary) : ActivationOutcome → ActivationDetail
  | .success tok =>
    { model_id := m.modelId, model_name := m.modelName.getD "Unknown",
      status := "success", reason := none, offer_token := some tok }
  | .failed reason =>
    { model_id := m.modelId, model_name := m.modelName.getD "Unknown",
      status := "failed", reason := some reason, offer_token := none }

/-- Contribution of an outcome to successful_activations. -/
def succIncr : ActivationOutcome → Nat
  | .success _ => 1
  | .failed _ => 0

/-- Contribution of an outcome to failed_activations. -/
def failIncr : ActivationOutcome → Nat
  | .success _ => 0
  | .failed _ => 1

/-- How the classifier decides a single model, as a Boolean: true means the
model lands in accessible_models, false in models_needing_access. -/
def classifiesAccessible (env : Env) (m : ModelSummary) : Bool :=
  match env.getFoundationModelAvailability m.modelId with
  | .ok resp => if agreementStatusOf resp = "NOT_AVAILABLE" then false else true
  | .error _ => false

/-- Concrete model supporting ON_DEMAND, for witnesses. -/
def mOnDemand : ModelSummary :=
  { modelId := some "model-a", modelName := some "Model A",
    inferenceTypesSupported := some ["ON_DEMAND"], extra := [] }

/-- Concrete model with no inferenceTypesSupported key, for witnesses. -/
def mNoTypes : ModelSummary :=
  { modelId := some "model-b", modelName := none,
    inferenceTypesSupported := none, extra := [] }

/-- Availability response with no agreementAvailability key: the status
defaults to UNKNOWN. -/
def respUnknown : AvailabilityResponse :=
  { agreementAvailability := none, authorizationStatus := none }

/-- Availability response reporting NOT_AVAILABLE. -/
def respNotAvailable : AvailabilityResponse :=
  { agreementAvailability := some { status := some "NOT_AVAILABLE" },
    authorizationStatus := some "NOT_AUTHORIZED" }

/-- Environment where every call succeeds and the one catalog model needs
and obtains an agreement. -/
def envHappy : Env :=
  { listFoundationModels := .ok { modelSummaries := some [mOnDemand] }
    getFoundationModelAvailability := fun _ => .ok respNotAvailable
    listFoundationModelAgreementOffers := fun _ =>
      .ok { offers := some [{ offerToken := some "tok-123", extra := [] }] }
    createFoundationModelAgreement := fun _ _ => .ok () }

/-- Environment whose catalog listing fails. -/
def envDown : Env :=
  { listFoundationModels := .error "catalog down"
    getFoundationModelAvailability := fun _ => .error "down"
    listFoundationModelAgreementOffers := fun _ => .error "down"
    createFoundationModelAgreement := fun _ _ => .error "down" }

/-- Environment whose availability query always fails. -/
def envAvailErr : Env :=
  { envHappy with
    getFoundationModelAvailability := fun _ => .error "availability error" }

/-- Environment whose availability query reports the UNKNOWN default. -/
def envUnknown : Env :=
  { envHappy with getFoundationModelAvailability := fun _ => .ok respUnknown }

/-- The report produced by activate_all_models on envHappy. -/
def happyReport : ActivationResults :=
  { total_models := 1, filtered_models := 1, already_accessible := 0,
    attempted_activation := 1, successful_activations := 1,
    failed_activations := 0,
    activation_details :=
      [{ model_id := some "model-a", model_name := "Model A",
         status := "success", reason := none,
         offer_token := some "tok-123" }] }

theorem filter_eq_listFilter (models : List ModelSummary) :
    filter_on_demand_models models = models.filter supportsOnDemandOrProfile := by
  induction models with
  | nil => rfl
  | cons m rest ih =>
    by_cases h : supportsOnDemandOrProfile m = true
    · rw [filter_on_demand_models, if_pos h, List.filter_cons_of_pos h, ih]
    · rw [filter_on_demand_models, if_neg h, ih,
        List.filter_cons_of_neg (by simpa using h)]

theorem supports_iff (m : ModelSummary) :
    supportsOnDemandOrProfile m = true ↔
      ∃ t ∈ m.inferenceTypesSupported.getD [],
        t = "ON_DEMAND" ∨ t = "INFERENCE_PROFILE" := by
  simp [supportsOnDemandOrProfile, List.any_eq_true]

theorem filter_sublist (models : List ModelSummary) :
    (filter_on_demand_models models).Sublist models := by
  rw [filter_eq_listFilter]
  exact List.filter_sublist models

theorem mem_filter_iff (models : List ModelSummary) (m : ModelSummary) :
    m ∈ filter_on_demand_models models ↔
      m ∈ models ∧ supportsOnDemandOrProfile m = true := by
  rw [filter_eq_listFilter]
  exact List.mem_filter

theorem check_cons_classifies_true (env : Env) (m : ModelSummary)
    (rest : List ModelSummary) (h : classifiesAccessible env m = true) :
    check_model_access_status env (m :: rest) =
      (m :: (check_model_access_status env rest).1,
       (check_model_access_status env rest).2) := by
  rw [check_model_access_status]
  unfold classifiesAccessible at h
  cases he : env.getFoundationModelAvailability m.modelId with
  | ok resp =>
    rw [he] at h
    by_cases hs : agreementStatusOf resp = "NOT_AVAILABLE"
    · simp [hs] at h
    · simp [hs]
  | error e =>
    rw [he] at h
    simp at h

theorem check_cons_classifies_false (env : Env) (m : ModelSummary)
    (rest : List ModelSummary) (h : classifiesAccessible env m = false) :
    check_model_access_status env (m :: rest) =
      ((check_model_access_status env rest).1,
       m :: (check_model_access_status env rest).2) := by
  rw [check_model_access_status]
  unfold classifiesAccessible at h
  cases he : env.getFoundationModelAvailability m.modelId with
  | ok resp =>
    rw [he] at h
    by_cases hs : agreementStatusOf resp = "NOT_AVAILABLE"
    · simp [hs]
    · simp [hs] at h
  | error e => rfl

theorem check_fst_sublist (env : Env) (models : List ModelSummary) :
    ((check_model_access_status env models).1).Sublist models := by
  induction models with
  | nil => simp [check_model_access_status]
  | cons m rest ih =>
    cases h : classifiesAccessible env m with
    | true =>
      rw [check_cons_classifies_true env m rest h]
      exact ih.cons₂ m
    | false =>
      rw [check_cons_classifies_false env m rest h]
      exact ih.cons m

theorem check_snd_sublist (env : Env) (models : List ModelSummary) :
    ((check_model_access_status env models).2).Sublist models := by
  induction models with
  | nil => simp [check_model_access_status]
  | cons m rest ih =>
    cases h : classifiesAccessible env m with
    | true =>
      rw [check_cons_classifies_true env m rest h]
      exact ih.cons m
    | false =>
      rw [check_cons_classifies_false env m rest h]
      exact ih.cons₂ m

theorem check_append_perm (env : Env) (models : List ModelSummary) :
    ((check_model_access_status env models).1 ++
      (check_model_access_status env models).2).Perm models := by
  induction models with
  | nil => simp [check_model_access_status]
  | cons m rest ih =>
    cases h : classifiesAccessible env m with
    | true =>
      rw [check_cons_classifies_true env m rest h]
      exact (List.cons_append m _ _ ▸ ih.cons m)
    | false =>
      rw [check_cons_classifies_false env m rest h]
      exact List.perm_middle.trans (ih.cons m)

theorem mem_check_fst_classifies (env : Env) (models : List ModelSummary)
    (m : ModelSummary)
    (hm : m ∈ (check_model_access_status env models).1) :
    classifiesAccessible env m = true := by
  induction models with
  | nil => simp [check_model_access_status] at hm
  | cons a rest ih =>
    cases h : classifiesAccessible env a with
    | true =>
      rw [check_cons_classifies_true env a rest h] at hm
      rcases List.mem_cons.mp hm with rfl | hm2
      · exact h
      · exact ih hm2
    | false =>
      rw [check_cons_classifies_false env a rest h] at hm
      exact ih hm

theorem mem_check_snd_classifies (env : Env) (models : List ModelSummary)
    (m : ModelSummary)
    (hm : m ∈ (check_model_access_status env models).2) :
    classifiesAccessible env m = false := by
  induction models with
  | nil => simp [check_model_access_status] at hm
  | cons a rest ih =>
    cases h : classifiesAccessible env a with
    | true =>
      rw [check_cons_classifies_true env a rest h] at hm
      exact ih hm
    | false =>
      rw [check_cons_classifies_false env a rest h] at hm
      rcases List.mem_cons.mp hm with rfl | hm2
      · exact h
      · exact ih hm2

theorem mem_check_of_mem (env : Env) (models : List ModelSummary)
    (m : ModelSummary) (hm : m ∈ models) :
    m ∈ (check_model_access_status env models).1 ∨
      m ∈ (check_model_access_status env models).2 := by
  have := (check_append_perm env models).mem_iff.mpr hm
  exact List.mem_append.mp this

theorem check_lengths (env : Env) (models : List ModelSummary) :
    (check_model_access_status env models).1.length +
      (check_model_access_status env models).2.length = models.length := by
  have := (check_append_perm env models).length_eq
  simpa using this

theorem process_model_step (env : Env) (r : ActivationResults)
    (m : ModelSummary) :
    (process_model env r m).total_models = r.total_models ∧
    (process_model env r m).filtered_models = r.filtered_models ∧
    (process_model env r m).already_accessible = r.already_accessible ∧
    (process_model env r m).attempted_activation = r.attempted_activation ∧
    (process_model env r m).successful_activations +
      (process_model env r m).failed_activations =
      r.successful_activations + r.failed_activations + 1 ∧
    (process_model env r m).activation_details.length =
      r.activation_details.length + 1 := by
  unfold process_model
  split
  · simp [recordFailure]
    omega
  · split
    · simp [recordFailure]
      omega
    · split
      · simp [recordFailure]
        omega
      · split
        · simp [recordSuccess]
          omega
        · simp [recordFailure]
          omega

theorem foldl_process_invariants (env : Env) (l : List ModelSummary)
    (r : ActivationResults) :
    (l.foldl (process_model env) r).total_models = r.total_models ∧
    (l.foldl (process_model env) r).filtered_models = r.filtered_models ∧
    (l.foldl (process_model env) r).already_accessible =
      r.already_accessible ∧
    (l.foldl (process_model env) r).attempted_activation =
      r.attempted_activation ∧
    (l.foldl (process_model env) r).successful_activations +
      (l.foldl (process_model env) r).failed_activations =
      r.successful_activations + r.failed_activations + l.length ∧
    (l.foldl (process_model env) r).activation_details.length =
      r.activation_details.length + l.length := by
  induction l generalizing r with
  | nil => simp
  | cons m rest ih =>
    rw [List.foldl_cons]
    have hs := process_model_step env r m
    have hr := ih (process_model env r m)
    obtain ⟨s1, s2, s3, s4, s5, s6⟩ := hs
    obtain ⟨r1, r2, r3, r4, r5, r6⟩ := hr
    refine ⟨by omega, by omega, by omega, by omega, by simp; omega,
      by simp; omega⟩

/-- Claim C1: each model processed by the remediation loop follows the
short-circuit mapping: offer fetch error or empty offer list gives a failed
no_offers_available entry; otherwise the offer at index 0 is selected and a
missing or empty offerToken gives a failed no_offer_token entry; otherwise
the agreement is submitted with exactly that token, failure giving a failed
agreement_creation_failed entry and success a success entry carrying the
token verbatim; the matching counter increments by one and exactly one
detail entry is appended. -/
theorem remediator_outcome_mapping (env : Env) (r : ActivationResults)
    (m : ModelSummary) :
    process_model env r m =
      { r with
        successful_activations :=
          r.successful_activations + succIncr (specRemediate env m)
        failed_activations :=
          r.failed_activations + failIncr (specRemediate env m)
        activation_details :=
          r.activation_details ++
            [detailOfOutcome m (specRemediate env m)] } := by
  cases he : env.listFoundationModelAgreementOffers m.modelId with
  | error e =>
    simp [process_model, get_agreement_offers, specRemediate, he,
      recordFailure, detailOfOutcome, succIncr, failIncr]
  | ok resp =>
    cases ho : resp.offers.getD [] with
    | nil =>
      simp [process_model, get_agreement_offers, specRemediate, he, ho,
        recordFailure, detailOfOutcome, succIncr, failIncr]
    | cons offer tl =>
      cases ht : offer.offerToken with
      | none =>
        simp [process_model, get_agreement_offers, specRemediate, he, ho,
          ht, recordFailure, detailOfOutcome, succIncr, failIncr]
      | some tok =>
        by_cases hemp : tok = ""
        · simp [process_model, get_agreement_offers, specRemediate, he, ho,
            ht, hemp, recordFailure, detailOfOutcome, succIncr, failIncr]
        · cases hc : env.createFoundationModelAgreement m.modelId tok with
          | ok u =>
            simp [process_model, get_agreement_offers, specRemediate,
              create_model_agreement, he, ho, ht, hemp, hc, recordSuccess,
              detailOfOutcome, succIncr, failIncr]
          | error e =>
            simp [process_model, get_agreement_offers, specRemediate,
              create_model_agreement, he, ho, ht, hemp, hc, recordFailure,
              detailOfOutcome, succIncr, failIncr]

theorem report_invariants (env : Env) (r : ActivationResults)
    (h : activate_all_models env = .ok r) :
    r.successful_activations + r.failed_activations =
      r.attempted_activation ∧
    r.filtered_models = r.already_accessible + r.attempted_activation ∧
    r.activation_details.length = r.attempted_activation := by
  unfold activate_all_models at h
  cases hl : list_foundation_models env with
  | error e => simp [hl] at h
  | ok all_models =>
    simp only [hl] at h
    injection h with h2
    subst h2
    obtain ⟨i1, i2, i3, i4, i5, i6⟩ := foldl_process_invariants env
      (check_model_access_status env (filter_on_demand_models all_models)).2
      { total_models := all_models.length
        filtered_models := (filter_on_demand_models all_models).length
        already_accessible :=
          (check_model_access_status env
            (filter_on_demand_models all_models)).1.length
        attempted_activation :=
          (check_model_access_status env
            (filter_on_demand_models all_models)).2.length
        successful_activations := 0
        failed_activations := 0
        activation_details := [] }
    have hlen := check_lengths env (filter_on_demand_models all_models)
    simp at i1 i2 i3 i4 i5 i6
    exact ⟨by omega, by omega, by omega⟩

/-- Claim C2: a failure of the initial catalog listing propagates out of
activate_all_models unmodified and no report is produced; when the catalog
listing succeeds, a report is always produced, whatever the availability,
offer and agreement oracles do, with one detail entry per attempted model
(per-model failures are contained and never abort the rest). -/
theorem catalog_failure_fatal_per_model_contained (env : Env) :
    (∀ e, env.listFoundationModels = .error e →
      activate_all_models env = .error e) ∧
    (∀ resp, env.listFoundationModels = .ok resp →
      ∃ r, activate_all_models env = .ok r ∧
        r.activation_details.length = r.attempted_activation) := by
  constructor
  · intro e he
    simp [activate_all_models, list_foundation_models, he]
  · intro resp hresp
    cases hres : activate_all_models env with
    | error e =>
      exfalso
      unfold activate_all_models at hres
      simp [list_foundation_models, hresp] at hres
    | ok r =>
      exact ⟨r, rfl, (report_invariants env r hres).2.2⟩

theorem catalog_failure_witness :
    activate_all_models envDown = .error "catalog down" :=
  (catalog_failure_fatal_per_model_contained envDown).1 "catalog down" rfl

/-- Claim C3: every report returned by activate_all_models satisfies
successful_activations + failed_activations = attempted_activation,
whatever the remote oracles do. -/
theorem report_totals_invariant (env : Env) (r : ActivationResults)
    (h : activate_all_models env = .ok r) :
    r.successful_activations + r.failed_activations =
      r.attempted_activation :=
  (report_invariants env r h).1

theorem report_totals_invariant_witness :
    happyReport.successful_activations + happyReport.failed_activations =
      happyReport.attempted_activation :=
  report_totals_invariant envHappy happyReport (by rfl)

/-- Claim C8: every report returned by activate_all_models satisfies
filtered_models = already_accessible + attempted_activation. -/
theorem report_counter_consistency (env : Env) (r : ActivationResults)
    (h : activate_all_models env = .ok r) :
    r.filtered_models = r.already_accessible + r.attempted_activation :=
  (report_invariants env r h).2.1

theorem report_counter_consistency_witness :
    happyReport.filtered_models =
      happyReport.already_accessible + happyReport.attempted_activation :=
  report_counter_consistency envHappy happyReport (by rfl)

/-- Counterexample to claim C4 as stated: on a concrete model whose
availability query succeeds with the agreement status omitted (hence the
UNKNOWN default), the classifier does NOT place the model in the
needing-access list. -/
theorem unknown_status_not_needing_access :
    envUnknown.getFoundationModelAvailability mOnDemand.modelId =
      .ok respUnknown ∧
    agreementStatusOf respUnknown = "UNKNOWN" ∧
    mOnDemand ∉ (check_model_access_status envUnknown [mOnDemand]).2 := by
  refine ⟨rfl, rfl, ?_⟩
  decide

/-- Claim C4 amended: a model whose availability query succeeds and reports
agreementStatus UNKNOWN (in particular when the response omits the status so
that it defaults to UNKNOWN) is placed in the accessible list, not in the
needing-access list: only NOT_AVAILABLE routes a model to remediation. -/
theorem unknown_status_classified_accessible (env : Env)
    (models : List ModelSummary) (m : ModelSummary)
    (resp : AvailabilityResponse) (hm : m ∈ models)
    (hok : env.getFoundationModelAvailability m.modelId = .ok resp)
    (hstat : agreementStatusOf resp = "UNKNOWN") :
    m ∈ (check_model_access_status env models).1 ∧
    m ∉ (check_model_access_status env models).2 := by
  have hcl : classifiesAccessible env m = true := by
    simp [classifiesAccessible, hok, hstat]
  have hnot : m ∉ (check_model_access_status env models).2 := by
    intro h2
    have := mem_check_snd_classifies env models m h2
    rw [hcl] at this
    exact Bool.noConfusion this
  rcases mem_check_of_mem env models m hm with h1 | h2
  · exact ⟨h1, hnot⟩
  · exact absurd h2 hnot

theorem unknown_status_classified_accessible_witness :
    mOnDemand ∈ (check_model_access_status envUnknown [mOnDemand]).1 ∧
    mOnDemand ∉ (check_model_access_status envUnknown [mOnDemand]).2 :=
  unknown_status_classified_accessible envUnknown [mOnDemand] mOnDemand
    respUnknown (by decide) rfl rfl

/-- Claim C5: the filter output is a subsequence of its input (same relative
order, no insertions, no deduplication) and holds exactly the models whose
inferenceTypesSupported meets the set of ON_DEMAND and INFERENCE_PROFILE:
it equals the plain filtering of the input by that intersection test. -/
theorem filter_subsequence_exact (models : List ModelSummary) :
    (filter_on_demand_models models).Sublist models ∧
    (∀ m, m ∈ filter_on_demand_models models ↔
      m ∈ models ∧ ∃ t ∈ m.inferenceTypesSupported.getD [],
        t = "ON_DEMAND" ∨ t = "INFERENCE_PROFILE") ∧
    filter_on_demand_models models =
      models.filter (fun m =>
        decide (∃ t ∈ m.inferenceTypesSupported.getD [],
          t = "ON_DEMAND" ∨ t = "INFERENCE_PROFILE")) := by
  refine ⟨filter_sublist models, ?_, ?_⟩
  · intro m
    rw [mem_filter_iff, supports_iff]
  · rw [filter_eq_listFilter]
    apply List.filter_congr
    intro m hm
    exact Bool.eq_iff_iff.mpr
      ((supports_iff m).trans decide_eq_true_iff.symm)

theorem filter_subsequence_exact_witness :
    mOnDemand ∈ filter_on_demand_models [mOnDemand, mNoTypes] :=
  ((filter_subsequence_exact [mOnDemand, mNoTypes]).2.1 mOnDemand).mpr
    (by decide)

/-- Claim C6: the two classifier outputs are each order-preserving
subsequences of the input, together they are a permutation of the input
(every input model lands in exactly one side, counted with multiplicity,
and nothing else appears), and no record appears on both sides. -/
theorem classify_partition (env : Env) (models : List ModelSummary) :
    ((check_model_access_status env models).1).Sublist models ∧
    ((check_model_access_status env models).2).Sublist models ∧
    ((check_model_access_status env models).1 ++
      (check_model_access_status env models).2).Perm models ∧
    ∀ m, m ∈ (check_model_access_status env models).1 →
      m ∉ (check_model_access_status env models).2 := by
  refine ⟨check_fst_sublist env models, check_snd_sublist env models,
    check_append_perm env models, ?_⟩
  intro m h1 h2
  have t1 := mem_check_fst_classifies env models m h1
  have t2 := mem_check_snd_classifies env models m h2
  rw [t1] at t2
  exact Bool.noConfusion t2

theorem classify_partition_witness :
    mOnDemand ∉ (check_model_access_status envUnknown [mOnDemand]).2 :=
  (classify_partition envUnknown [mOnDemand]).2.2.2 mOnDemand (by decide)

/-- Claim C7: a model whose availability query raises an error is placed in
the needing-access list and never in the accessible list; the classifier
absorbs the error (it is total and returns the partition, so nothing
propagates upward). -/
theorem availability_error_needs_access (env : Env)
    (models : List ModelSummary) (m : ModelSummary) (e : String)
    (hm : m ∈ models)
    (he : env.getFoundationModelAvailability m.modelId = .error e) :
    m ∈ (check_model_access_status env models).2 ∧
    m ∉ (check_model_access_status env models).1 := by
  have hcl : classifiesAccessible env m = false := by
    simp [classifiesAccessible, he]
  have hnot : m ∉ (check_model_access_status env models).1 := by
    intro h1
    have := mem_check_fst_classifies env models m h1
    rw [hcl] at this
    exact Bool.noConfusion this
  rcases mem_check_of_mem env models m hm with h1 | h2
  · exact absurd h1 hnot
  · exact ⟨h2, hnot⟩

theorem availability_error_needs_access_witness :
    mOnDemand ∈ (check_model_access_status envAvailErr [mOnDemand]).2 ∧
    mOnDemand ∉ (check_model_access_status envAvailErr [mOnDemand]).1 :=
  availability_error_needs_access envAvailErr [mOnDemand] mOnDemand
    "availability error" (by decide) rfl

/-- Claim C9: no pipeline stage alters a ModelSummary record: every record
in the filter output and in either classifier output is literally one of
the input records, all fields included (modelId, modelName,
inferenceTypesSupported and the extra fields), since equality here is
equality of whole records. -/
theorem pipeline_frame_records (env : Env) (models : List ModelSummary) :
    (∀ m, m ∈ filter_on_demand_models models → m ∈ models) ∧
    (∀ m, m ∈ (check_model_access_status env models).1 → m ∈ models) ∧
    (∀ m, m ∈ (check_model_access_status env models).2 → m ∈ models) :=
  ⟨fun _ hm => (filter_sublist models).subset hm,
   fun _ hm => (check_fst_sublist env models).subset hm,
   fun _ hm => (check_snd_sublist env models).subset hm⟩

theorem pipeline_frame_records_witness :
    mOnDemand ∈ [mOnDemand, mNoTypes] :=
  (pipeline_frame_records envHappy [mOnDemand, mNoTypes]).1 mOnDemand
    (by decide)

/-- Claim C10: a model summary with no inferenceTypesSupported key does not
make the filter fail (the filter is a total function on such records): the
model is treated as supporting no inference types, never kept in any
output, and dropped from the front of any input. -/
theorem missing_inference_types_dropped (models : List ModelSummary)
    (m : ModelSummary) (h : m.inferenceTypesSupported = none) :
    m ∉ filter_on_demand_models models ∧
    filter_on_demand_models (m :: models) = filter_on_demand_models models := by
  have hs : supportsOnDemandOrProfile m = false := by
    simp [supportsOnDemandOrProfile, h]
  constructor
  · intro hm
    have := (mem_filter_iff models m).mp hm
    rw [hs] at this
    exact Bool.noConfusion this.2
  · rw [filter_on_demand_models]
    simp [hs]

theorem missing_inference_types_dropped_witness :
    mNoTypes ∉ filter_on_demand_models [mOnDemand] ∧
    filter_on_demand_models (mNoTypes :: [mOnDemand]) =
      filter_on_demand_models [mOnDemand] :=
  missing_inference_types_dropped [mOnDemand] mNoTypes rfl
